import Mathlib

/-!
# Verification of the azure-key-vault-to-kubernetes controller core

Shallow embedding of `cmd/azure-keyvault-controller/controller/azureKeyVaultSecret.go`:
the event dispatcher (`initAzureKeyVaultSecret`), the structural reconciler
(`syncAzureKeyVaultSecret`), the vault-drift reconciler (`syncAzureKeyVault`),
the handler dispatch (`getSecretFromKeyVault` / `getConfigMapFromKeyVault`),
and the status persisters.  Collaborator functions that live outside this
source file (get-or-create, handlers, digests, the queue retry wrapper) are
modelled from the design spec and marked as such in their doc comments.
-/

namespace Akv2k8s

/-- An owner reference carried by a native Kubernetes object
(kind / name / uid of the owner, and whether it is the controller reference). -/
structure OwnerRef where
  kind : String
  name : String
  uid : String
  controller : Bool
deriving DecidableEq, Repr

/-- `Spec.Output.Secret` of the AzureKeyVaultSecret custom resource. -/
structure SecretOutputSpec where
  name : String
  dataKey : String
  secretType : String
deriving DecidableEq, Repr

/-- `Spec.Output.ConfigMap` of the AzureKeyVaultSecret custom resource. -/
structure ConfigMapOutputSpec where
  name : String
  dataKey : String
deriving DecidableEq, Repr

/-- `Spec.Output`: the optional secret output, the optional config-map output,
and the requested output transformations (consumed by the transformator). -/
structure OutputSpec where
  secret : SecretOutputSpec
  configMap : ConfigMapOutputSpec
  transforms : List String
deriving DecidableEq, Repr

/-- `Spec.Vault.Object`: the target object in Azure Key Vault. -/
structure VaultObjectSpec where
  name : String
  objectType : String
  version : String
deriving DecidableEq, Repr

/-- `Spec.Vault`: the vault reference. -/
structure VaultSpec where
  name : String
  object : VaultObjectSpec
deriving DecidableEq, Repr

/-- The spec of the AzureKeyVaultSecret custom resource. -/
structure AzureKeyVaultSecretSpec where
  vault : VaultSpec
  output : OutputSpec
deriving DecidableEq, Repr

/-- The status subresource of the AzureKeyVaultSecret custom resource.
`otherFields` stands for any status data not owned by this controller,
so that frame conditions ("all other status fields untouched") are statable. -/
structure AzureKeyVaultSecretStatus where
  secretName : String
  secretHash : String
  configMapName : String
  configMapHash : String
  lastAzureUpdate : Nat
  otherFields : String
deriving DecidableEq, Repr

/-- The AzureKeyVaultSecret custom resource (the declaring resource). -/
structure AzureKeyVaultSecret where
  ns : String
  name : String
  uid : String
  resourceVersion : String
  spec : AzureKeyVaultSecretSpec
  status : AzureKeyVaultSecretStatus
deriving DecidableEq, Repr

/-- `akv.AzureKeyVaultObjectTypeSecret`. -/
def AzureKeyVaultObjectTypeSecret : String := "secret"

/-- `akv.AzureKeyVaultObjectTypeCertificate`. -/
def AzureKeyVaultObjectTypeCertificate : String := "certificate"

/-- `akv.AzureKeyVaultObjectTypeKey`. -/
def AzureKeyVaultObjectTypeKey : String := "key"

/-- `akv.AzureKeyVaultObjectTypeMultiKeyValueSecret`. -/
def AzureKeyVaultObjectTypeMultiKeyValueSecret : String := "multi-key-value-secret"

/-- The closed set of vault object types the controller dispatches on. -/
def closedVaultObjectTypes : List String :=
  [AzureKeyVaultObjectTypeSecret, AzureKeyVaultObjectTypeCertificate,
   AzureKeyVaultObjectTypeKey, AzureKeyVaultObjectTypeMultiKeyValueSecret]

/-- `Controller.akvsHasOutputSecret`: the secret output is defined iff its name is nonempty. -/
def akvsHasOutputSecret (s : AzureKeyVaultSecret) : Bool :=
  s.spec.output.secret.name ≠ ""

/-- `Controller.akvsHasOutputConfigMap`: the config-map output is defined iff its name is nonempty. -/
def akvsHasOutputConfigMap (s : AzureKeyVaultSecret) : Bool :=
  s.spec.output.configMap.name ≠ ""

/-- `Controller.akvsHasOutputDefined`. -/
def akvsHasOutputDefined (s : AzureKeyVaultSecret) : Bool :=
  akvsHasOutputSecret s || akvsHasOutputConfigMap s

/-! ## Event dispatcher (`initAzureKeyVaultSecret`) -/

/-- The payload delivered to an informer event handler: either a proper
AzureKeyVaultSecret, a `DeletedFinalStateUnknown` tombstone (with its key and
the wrapped object, which may or may not be an AzureKeyVaultSecret), or a
foreign object of some other type. -/
inductive EventObject where
  | akvs (s : AzureKeyVaultSecret)
  | tombstoneAkvs (key : String) (s : AzureKeyVaultSecret)
  | tombstoneOther (key : String) (desc : String)
  | foreign (desc : String)
deriving DecidableEq, Repr

/-- `convertToAzureKeyVaultSecret`: type-assert the payload, falling back to a
tombstone's wrapped object; any other shape is an error. -/
def convertToAzureKeyVaultSecret : EventObject → Except String AzureKeyVaultSecret
  | .akvs s => .ok s
  | .tombstoneAkvs _ s => .ok s
  | .tombstoneOther _ d =>
      .error ("tombstone contained object that is not a AzureKeyVaultSecret " ++ d)
  | .foreign d => .error ("couldn't get object from tombstone " ++ d)

/-- `cache.MetaNamespaceKeyFunc` on an AzureKeyVaultSecret: `namespace/name`
(just `name` when the namespace is empty). -/
def metaKey (s : AzureKeyVaultSecret) : String :=
  if s.ns = "" then s.name else s.ns ++ "/" ++ s.name

/-- `cache.MetaNamespaceKeyFunc` on an event payload: tombstones yield their
stored key; foreign objects have no object meta and fail. -/
def metaNamespaceKeyFunc : EventObject → Except String String
  | .akvs s => .ok (metaKey s)
  | .tombstoneAkvs k _ => .ok k
  | .tombstoneOther k _ => .ok k
  | .foreign d => .error ("object has no meta: " ++ d)

/-- The key `queue.Enqueue` computes for an event payload (it only ever runs on
payloads that converted successfully, hence tombstones and proper objects). -/
def eventObjectKey : EventObject → String
  | .akvs s => metaKey s
  | .tombstoneAkvs k _ => k
  | .tombstoneOther k _ => k
  | .foreign _ => ""

/-- A queue mutation performed by an event handler: enqueue on the structural
(CRD) queue, enqueue on the vault-drift (Azure) queue, or `Forget` a key's
retry/backoff state on the vault-drift queue. -/
inductive QueueAction where
  | enqueueCrd (key : String)
  | enqueueAzure (key : String)
  | forgetAzure (key : String)
deriving DecidableEq, Repr

/-- What an event handler call does: either it completes with a list of queue
actions, or it dereferences the nil result of a failed conversion and panics.
The Go handlers log a conversion error but do not return, so the very next
statement (`akvsHasOutputDefined(secret)` or `newSecret.ResourceVersion`)
dereferences a nil pointer. -/
inductive HandlerResult where
  | ok (actions : List QueueAction)
  | nilPanic
deriving DecidableEq, Repr

/-- `AddFunc` of `initAzureKeyVaultSecret`. -/
def onAdd (obj : EventObject) : HandlerResult :=
  match convertToAzureKeyVaultSecret obj with
  | .error _ => .nilPanic
  | .ok secret =>
      if akvsHasOutputDefined secret then
        .ok [.enqueueCrd (eventObjectKey obj)]
      else
        .ok []

/-- `UpdateFunc` of `initAzureKeyVaultSecret`.  Both conversion results are
dereferenced at the resource-version comparison, so either failure panics. -/
def onUpdate (old new : EventObject) : HandlerResult :=
  match convertToAzureKeyVaultSecret new, convertToAzureKeyVaultSecret old with
  | .ok newSecret, .ok oldSecret =>
      if newSecret.resourceVersion = oldSecret.resourceVersion
          && akvsHasOutputDefined newSecret then
        .ok [.enqueueAzure (eventObjectKey new)]
      else if akvsHasOutputDefined newSecret || akvsHasOutputDefined oldSecret then
        .ok [.enqueueCrd (eventObjectKey new)]
      else
        .ok []
  | _, _ => .nilPanic

/-- `DeleteFunc` of `initAzureKeyVaultSecret`: enqueue a final structural pass
and `Forget` the key on the vault-drift queue (skipping the `Forget` when the
key function fails). -/
def onDelete (obj : EventObject) : HandlerResult :=
  match convertToAzureKeyVaultSecret obj with
  | .error _ => .nilPanic
  | .ok secret =>
      if akvsHasOutputDefined secret then
        match metaNamespaceKeyFunc obj with
        | .ok key => .ok [.enqueueCrd (eventObjectKey obj), .forgetAzure key]
        | .error _ => .ok [.enqueueCrd (eventObjectKey obj)]
      else
        .ok []

/-- The observable state of the two work queues: pending keys on each queue and
the vault-drift queue's retry/backoff entries. -/
structure DispatchState where
  crdQueue : List String
  azureQueue : List String
  azureRetry : List String
deriving DecidableEq, Repr

/-- Modelled from the spec: applying one queue action — `Enqueue` adds the key
(queues de-duplicate by key), `Forget` clears the key's retry/backoff state. -/
def applyQueueAction (st : DispatchState) : QueueAction → DispatchState
  | .enqueueCrd k =>
      if k ∈ st.crdQueue then st else { st with crdQueue := st.crdQueue ++ [k] }
  | .enqueueAzure k =>
      if k ∈ st.azureQueue then st else { st with azureQueue := st.azureQueue ++ [k] }
  | .forgetAzure k =>
      { st with azureRetry := st.azureRetry.filter (fun x => x ≠ k) }

/-- Apply a list of queue actions in order. -/
def applyQueueActions (st : DispatchState) : List QueueAction → DispatchState
  | [] => st
  | a :: rest => applyQueueActions (applyQueueAction st a) rest

/-! ## Cluster state and resource resolution -/

/-- A native Kubernetes secret (`corev1.Secret`); byte payloads are modelled
as strings. -/
structure KubeSecret where
  ns : String
  name : String
  secretType : String
  data : List (String × String)
  ownerRefs : List OwnerRef
deriving DecidableEq, Repr

/-- A native Kubernetes config map (`corev1.ConfigMap`). -/
structure KubeConfigMap where
  ns : String
  name : String
  data : List (String × String)
  ownerRefs : List OwnerRef
deriving DecidableEq, Repr

/-- A recorder event: the object it is recorded against, the event type
(`Normal`/`Warning`) and the reason. -/
structure EventRec where
  target : String
  etype : String
  reason : String
deriving DecidableEq, Repr

/-- `SuccessSynced` event reason. -/
def SuccessSynced : String := "Synced"

/-- `ErrResourceExists` event reason. -/
def ErrResourceExists : String := "ErrResourceExists"

/-- `ErrAzureVault` event reason. -/
def ErrAzureVault : String := "ErrAzureVault"

/-- `MessageResourceExists` format applied to an object name. -/
def MessageResourceExists (name : String) : String :=
  "Resource " ++ name ++ " already exists and is not managed by AzureKeyVaultSecret"

/-- `FailedAzureKeyVault` format applied to a resource and a vault name. -/
def FailedAzureKeyVaultMsg (akvsName vaultName : String) : String :=
  "failed to get secret for " ++ akvsName ++ " from Azure Key Vault " ++ vaultName

/-- The cluster API state visible to the controller: the stored declaring
resources, native secrets and config maps (each keyed by namespace and name),
and the controller clock (`c.clock.Now()`). -/
structure ClusterState where
  akvs : String → String → Option AzureKeyVaultSecret
  secrets : String → String → Option KubeSecret
  configMaps : String → String → Option KubeConfigMap
  clockNow : Nat

/-- The error cases of resolving a work key. -/
inductive ResolveError where
  | invalidKey (key : String)
  | notFound (key : String)
deriving DecidableEq, Repr

/-- Split a character list on `/` (structural helper for key parsing). -/
def splitOnSlash : List Char → List (List Char)
  | [] => [[]]
  | c :: rest =>
      let r := splitOnSlash rest
      if c = '/' then [] :: r
      else
        match r with
        | [] => [[c]]
        | g :: gs => (c :: g) :: gs

/-- `cache.SplitMetaNamespaceKey`: `name` or `namespace/name`; more than one
slash is an error. -/
def splitMetaNamespaceKey (key : String) : Except String (String × String) :=
  match splitOnSlash key.data with
  | [name] => .ok ("", String.mk name)
  | [ns, name] => .ok (String.mk ns, String.mk name)
  | _ => .error ("unexpected key format: " ++ key)

/-- `Controller.getAzureKeyVaultSecret`: split the key, look the resource up in
the lister; a missing resource is a not-found error. -/
def getAzureKeyVaultSecret (st : ClusterState) (key : String) :
    Except ResolveError AzureKeyVaultSecret :=
  match splitMetaNamespaceKey key with
  | .error _ => .error (.invalidKey key)
  | .ok (ns, name) =>
      match st.akvs ns name with
      | some a => .ok a
      | none => .error (.notFound key)

/-- `handleKeyVaultError`: only a not-found resolution is terminal success. -/
def handleKeyVaultError : ResolveError → Bool
  | .notFound _ => true
  | .invalidKey _ => false

/-- Render a resolve error as the error message the sync returns. -/
def resolveErrorMsg : ResolveError → String
  | .invalidKey k => "invalid resource key: " ++ k
  | .notFound k => "AzureKeyVaultSecret " ++ k ++ " no longer exists"

/-! ## Structural reconciler (`syncAzureKeyVaultSecret`) -/

/-- Modelled from the spec: `determineSecretName` — the declared secret output
name, falling back to the resource's own name when empty. -/
def determineSecretName (a : AzureKeyVaultSecret) : String :=
  if a.spec.output.secret.name ≠ "" then a.spec.output.secret.name else a.name

/-- Modelled from the spec: `determineConfigMapName` — the declared config-map
output name, falling back to the resource's own name when empty. -/
def determineConfigMapName (a : AzureKeyVaultSecret) : String :=
  if a.spec.output.configMap.name ≠ "" then a.spec.output.configMap.name else a.name

/-- The controller owner reference a created native object carries for its
declaring resource. -/
def ownerRefFor (a : AzureKeyVaultSecret) : OwnerRef :=
  { kind := "AzureKeyVaultSecret", name := a.name, uid := a.uid, controller := true }

/-- Modelled from the spec: `isOwnedBy` checks whether the object's controller
owner reference is set to the given declaring resource (kind/name/uid match). -/
def isOwnedBy (refs : List OwnerRef) (a : AzureKeyVaultSecret) : Bool :=
  match refs.find? (fun r => r.controller) with
  | some r => r.kind = "AzureKeyVaultSecret" && r.name = a.name && r.uid = a.uid
  | none => false

/-- The object metadata the structural reconciler keeps of the output object it
processed last (`metav1.Object`). -/
structure MetaObject where
  name : String
  ownerRefs : List OwnerRef
deriving DecidableEq, Repr

/-- Modelled from the spec: `getOrCreateKubernetesSecret` — ensure the native
secret exists, setting the ownership reference at creation time; an existing
object is returned untouched (payload population is the vault reconciler's
job).  Returns the object, the updated cluster state and the number of create
calls performed. -/
def getOrCreateKubernetesSecret (st : ClusterState) (a : AzureKeyVaultSecret) :
    KubeSecret × ClusterState × Nat :=
  match st.secrets a.ns (determineSecretName a) with
  | some s => (s, st, 0)
  | none =>
      let s : KubeSecret :=
        { ns := a.ns, name := determineSecretName a,
          secretType := a.spec.output.secret.secretType, data := [],
          ownerRefs := [ownerRefFor a] }
      (s, { st with secrets := fun n m =>
              if n = a.ns && m = determineSecretName a then some s
              else st.secrets n m }, 1)

/-- Modelled from the spec: `getOrCreateKubernetesConfigMap` — same contract as
the secret variant, for the config-map output. -/
def getOrCreateKubernetesConfigMap (st : ClusterState) (a : AzureKeyVaultSecret) :
    KubeConfigMap × ClusterState × Nat :=
  match st.configMaps a.ns (determineConfigMapName a) with
  | some cm => (cm, st, 0)
  | none =>
      let cm : KubeConfigMap :=
        { ns := a.ns, name := determineConfigMapName a, data := [],
          ownerRefs := [ownerRefFor a] }
      (cm, { st with configMaps := fun n m =>
              if n = a.ns && m = determineConfigMapName a then some cm
              else st.configMaps n m }, 1)

/-- The outcome of one structural reconciliation: the sync's return value
(success, error, or the nil-pointer panic of the ownership check when no output
object was assigned), the resulting cluster state, the recorder events emitted,
and the number of native create calls. -/
inductive StructResult where
  | ok
  | err (msg : String)
  | nilPanic
deriving DecidableEq, Repr

/-- Outcome record of `syncAzureKeyVaultSecret`. -/
structure StructSyncOutcome where
  result : StructResult
  state : ClusterState
  events : List EventRec
  creates : Nat

/-- `Controller.syncAzureKeyVaultSecret`: resolve the key; get-or-create each
defined output, recording a success event against the created/looked-up object
and remembering it as `outputObject` (the config map overwrites the secret when
both are defined); finally check `isOwnedBy(outputObject, akvs)` — a mismatch
records a warning against the declaring resource and returns an error, and a
nil `outputObject` is dereferenced (panic). -/
def syncAzureKeyVaultSecret (st : ClusterState) (key : String) : StructSyncOutcome :=
  match getAzureKeyVaultSecret st key with
  | .error e =>
      if handleKeyVaultError e then ⟨.ok, st, [], 0⟩
      else ⟨.err (resolveErrorMsg e), st, [], 0⟩
  | .ok akvs =>
      let step1 : Option MetaObject × ClusterState × List EventRec × Nat :=
        if akvsHasOutputSecret akvs then
          let (s, st1, n) := getOrCreateKubernetesSecret st akvs
          (some ⟨s.name, s.ownerRefs⟩, st1,
           [⟨"Secret/" ++ s.name, "Normal", SuccessSynced⟩], n)
        else (none, st, [], 0)
      let (obj1, st1, ev1, cr1) := step1
      let step2 : Option MetaObject × ClusterState × List EventRec × Nat :=
        if akvsHasOutputConfigMap akvs then
          let (cm, st2, n) := getOrCreateKubernetesConfigMap st1 akvs
          (some ⟨cm.name, cm.ownerRefs⟩, st2,
           ev1 ++ [⟨"ConfigMap/" ++ cm.name, "Normal", SuccessSynced⟩], cr1 + n)
        else (obj1, st1, ev1, cr1)
      let (outputObject, st2, ev2, cr2) := step2
      match outputObject with
      | none => ⟨.nilPanic, st2, ev2, cr2⟩
      | some o =>
          if ¬ isOwnedBy o.ownerRefs akvs then
            ⟨.err (MessageResourceExists o.name), st2,
             ev2 ++ [⟨"AzureKeyVaultSecret/" ++ akvs.name, "Warning", ErrResourceExists⟩],
             cr2⟩
          else ⟨.ok, st2, ev2, cr2⟩

/-! ## Object-type handler dispatch and digests -/

/-- The closed family of Kubernetes handlers the controller constructs.
Handler internals live outside this source file; only their selection is
embedded here. -/
inductive KubernetesHandler where
  | azureSecretHandler (transforms : List String)
  | azureCertificateHandler
  | azureKeyHandler
  | azureMultiKeySecretHandler
deriving DecidableEq, Repr

/-- Modelled from the spec: the output transformations the transformers package
supports. -/
def supportedTransforms : List String := ["trim", "base64encode", "base64decode"]

/-- Modelled from the spec: `transformers.CreateTransformator` — transformation
selection is driven by the output specification and fails fast on an
unsupported transformation request. -/
def CreateTransformator (out : OutputSpec) : Except String (List String) :=
  if out.transforms.all (fun t => supportedTransforms.contains t) then
    .ok out.transforms
  else
    .error "unsupported output transformation requested"

/-- Modelled from the spec: the vault-service collaborator, reduced to the
outcomes of fetching and shaping the target object's content — the key/value
data a handler's `HandleSecret` produces and the string data its
`HandleConfigMap` produces (or a fetch error). -/
structure VaultService where
  secretData : Except String (List (String × String))
  configMapData : Except String (List (String × String))

/-- Modelled from the spec: `KubernetesHandler.HandleSecret` — produce the
key/value secret payload from the vault. -/
def handleSecret (c : VaultService) (_h : KubernetesHandler) :
    Except String (List (String × String)) :=
  c.secretData

/-- Modelled from the spec: `KubernetesHandler.HandleConfigMap` — produce the
string config-map payload from the vault. -/
def handleConfigMap (c : VaultService) (_h : KubernetesHandler) :
    Except String (List (String × String)) :=
  c.configMapData

/-- The error returned by the `default` arm of both dispatch switches. -/
def unsupportedObjectTypeMsg (t : String) : String :=
  "azure key vault object type " ++ t ++ " not currently supported"

/-- The handler-selection switch of `getSecretFromKeyVault`. -/
def selectSecretHandler (a : AzureKeyVaultSecret) : Except String KubernetesHandler :=
  let t := a.spec.vault.object.objectType
  if t = AzureKeyVaultObjectTypeSecret then
    match CreateTransformator a.spec.output with
    | .error e => .error e
    | .ok tr => .ok (.azureSecretHandler tr)
  else if t = AzureKeyVaultObjectTypeCertificate then .ok .azureCertificateHandler
  else if t = AzureKeyVaultObjectTypeKey then .ok .azureKeyHandler
  else if t = AzureKeyVaultObjectTypeMultiKeyValueSecret then .ok .azureMultiKeySecretHandler
  else .error (unsupportedObjectTypeMsg t)

/-- The handler-selection switch of `getConfigMapFromKeyVault` (the source
duplicates the same switch). -/
def selectConfigMapHandler (a : AzureKeyVaultSecret) : Except String KubernetesHandler :=
  let t := a.spec.vault.object.objectType
  if t = AzureKeyVaultObjectTypeSecret then
    match CreateTransformator a.spec.output with
    | .error e => .error e
    | .ok tr => .ok (.azureSecretHandler tr)
  else if t = AzureKeyVaultObjectTypeCertificate then .ok .azureCertificateHandler
  else if t = AzureKeyVaultObjectTypeKey then .ok .azureKeyHandler
  else if t = AzureKeyVaultObjectTypeMultiKeyValueSecret then .ok .azureMultiKeySecretHandler
  else .error (unsupportedObjectTypeMsg t)

/-- `Controller.getSecretFromKeyVault`: select the handler by vault object type
and invoke `HandleSecret`. -/
def getSecretFromKeyVault (c : VaultService) (a : AzureKeyVaultSecret) :
    Except String (List (String × String)) :=
  match selectSecretHandler a with
  | .error e => .error e
  | .ok h => handleSecret c h

/-- `Controller.getConfigMapFromKeyVault`: select the handler by vault object
type and invoke `HandleConfigMap`. -/
def getConfigMapFromKeyVault (c : VaultService) (a : AzureKeyVaultSecret) :
    Except String (List (String × String)) :=
  match selectConfigMapHandler a with
  | .error e => .error e
  | .ok h => handleConfigMap c h

/-- Lexicographic ordering on character lists by code point. -/
def charListLe : List Char → List Char → Bool
  | [], _ => true
  | _ :: _, [] => false
  | c :: cs, d :: ds =>
      if c = d then charListLe cs ds else decide (c.toNat < d.toNat)

/-- Key ordering used to canonicalise payloads before hashing. -/
def pairLe (p q : String × String) : Bool :=
  charListLe p.1.data q.1.data

/-- Insert a pair into a key-sorted list of pairs. -/
def insertPairSorted (p : String × String) : List (String × String) → List (String × String)
  | [] => [p]
  | q :: qs => if pairLe p q then p :: q :: qs else q :: insertPairSorted p qs

/-- Sort key/value pairs by key (insertion sort). -/
def sortPairs : List (String × String) → List (String × String)
  | [] => []
  | p :: ps => insertPairSorted p (sortPairs ps)

/-- Flatten key/value pairs into a canonical string. -/
def encodePairs : List (String × String) → String
  | [] => ""
  | (k, v) :: ps => k ++ "=" ++ v ++ ";" ++ encodePairs ps

/-- Modelled from the spec: `getMD5HashOfByteValues` — the binary-payload
content digest, computed over the pairs sorted by key so the digest is
independent of mapping iteration order. -/
def getMD5HashOfByteValues (values : List (String × String)) : String :=
  "md5b:" ++ encodePairs (sortPairs values)

/-- Modelled from the spec: `getMD5HashOfStringValues` — the string-payload
content digest; a distinct flavor from the binary digest, never comparable to
it. -/
def getMD5HashOfStringValues (values : List (String × String)) : String :=
  "md5s:" ++ encodePairs (sortPairs values)

/-! ## Status persisters -/

/-- `DeepCopy` of the declaring resource: in this pure embedding a copy is the
value itself; mutation of the copy is record update, leaving the original
untouched. -/
def AzureKeyVaultSecret.deepCopy (a : AzureKeyVaultSecret) : AzureKeyVaultSecret := a

/-- `Controller.updateAzureKeyVaultSecretStatus`: build the status copy with
all five controller-owned fields set.  Returns the object passed to
`UpdateStatus`. -/
def updateAzureKeyVaultSecretStatus (now : Nat) (akvs : AzureKeyVaultSecret)
    (secretName cmName secretHash cmHash : String) : AzureKeyVaultSecret :=
  let akvsCopy := akvs.deepCopy
  { akvsCopy with status :=
      { akvsCopy.status with
          secretName := secretName, secretHash := secretHash,
          configMapName := cmName, configMapHash := cmHash,
          lastAzureUpdate := now } }

/-- `Controller.updateAzureKeyVaultSecretStatusForSecret`: build the status
copy with the secret-path fields (name, hash, timestamp) set. -/
def updateAzureKeyVaultSecretStatusForSecret (now : Nat) (akvs : AzureKeyVaultSecret)
    (secretHash : String) : AzureKeyVaultSecret :=
  let secretName := determineSecretName akvs
  let akvsCopy := akvs.deepCopy
  { akvsCopy with status :=
      { akvsCopy.status with
          secretName := secretName, secretHash := secretHash,
          lastAzureUpdate := now } }

/-- `Controller.updateAzureKeyVaultSecretStatusForConfigMap`: build the status
copy with the config-map-path fields (name, hash, timestamp) set. -/
def updateAzureKeyVaultSecretStatusForConfigMap (now : Nat) (akvs : AzureKeyVaultSecret)
    (cmHash : String) : AzureKeyVaultSecret :=
  let cmName := determineConfigMapName akvs
  let akvsCopy := akvs.deepCopy
  { akvsCopy with status :=
      { akvsCopy.status with
          configMapName := cmName, configMapHash := cmHash,
          lastAzureUpdate := now } }

/-- `UpdateStatus` against the cluster: replace the stored resource's status
subresource with the copy's status; fails when the resource no longer exists. -/
def applyUpdateStatus (st : ClusterState) (akvsCopy : AzureKeyVaultSecret) :
    Except String ClusterState :=
  match st.akvs akvsCopy.ns akvsCopy.name with
  | none => .error ("cannot update status, resource gone: " ++ akvsCopy.name)
  | some stored =>
      .ok { st with akvs := fun n m =>
              if n = akvsCopy.ns && m = akvsCopy.name then
                some { stored with status := akvsCopy.status }
              else st.akvs n m }

/-! ## Vault-drift reconciler (`syncAzureKeyVault`) -/

/-- Modelled from the spec: `updateExistingSecret` — take the existing native
secret and replace its payload (and type) according to the handler's output
contract, keeping its identity and owner references. -/
def updateExistingSecret (akvs : AzureKeyVaultSecret)
    (values : List (String × String)) (existing : KubeSecret) :
    Except String KubeSecret :=
  .ok { existing with
          data := values,
          secretType := akvs.spec.output.secret.secretType }

/-- Modelled from the spec: `createNewConfigMap` — build a fresh config map for
the declaring resource from the fetched values (name, namespace, ownership
reference and data all derived from the declaring resource, none from any
existing object). -/
def createNewConfigMap (akvs : AzureKeyVaultSecret)
    (values : List (String × String)) : KubeConfigMap :=
  { ns := akvs.ns, name := determineConfigMapName akvs,
    data := values, ownerRefs := [ownerRefFor akvs] }

/-- Running account of one vault-drift pass: cluster state, native-object
`Update` calls, `UpdateStatus` calls, native `Get` calls per kind, and recorder
events. -/
structure Acc where
  state : ClusterState
  nativeWrites : Nat
  statusWrites : Nat
  secretGets : Nat
  cmGets : Nat
  events : List EventRec

/-- `Secrets(ns).Update`: replace the stored secret; fails when absent. -/
def kubeUpdateSecret (a : Acc) (s : KubeSecret) : Except String Acc :=
  match a.state.secrets s.ns s.name with
  | none => .error ("failed to update secret, not found: " ++ s.name)
  | some _ =>
      .ok { a with
              state := { a.state with secrets := fun n m =>
                          if n = s.ns && m = s.name then some s
                          else a.state.secrets n m },
              nativeWrites := a.nativeWrites + 1 }

/-- `ConfigMaps(ns).Update`: replace the stored config map; fails when absent. -/
def kubeUpdateConfigMap (a : Acc) (cm : KubeConfigMap) : Except String Acc :=
  match a.state.configMaps cm.ns cm.name with
  | none => .error ("failed to update configmap, not found: " ++ cm.name)
  | some _ =>
      .ok { a with
              state := { a.state with configMaps := fun n m =>
                          if n = cm.ns && m = cm.name then some cm
                          else a.state.configMaps n m },
              nativeWrites := a.nativeWrites + 1 }

/-- Perform one status write (the `UpdateStatus` call) inside a pass. -/
def accUpdateStatus (a : Acc) (akvsCopy : AzureKeyVaultSecret) : Acc × Option String :=
  match applyUpdateStatus a.state akvsCopy with
  | .error e => (a, some e)
  | .ok st => ({ a with state := st, statusWrites := a.statusWrites + 1 }, none)

/-- The secret-output branch of `syncAzureKeyVault`: fetch the vault content
via the handler, digest it, and on a digest/status-hash mismatch `Get` the
existing secret, rebuild it and `Update` it; in every non-error case finish
with an unconditional status write for the secret path. -/
def vaultSyncSecretStep (c : VaultService) (akvs : AzureKeyVaultSecret) (a : Acc) :
    Acc × Option String :=
  match getSecretFromKeyVault c akvs with
  | .error _ =>
      ({ a with events := a.events ++
          [⟨"AzureKeyVaultSecret/" ++ akvs.name, "Warning", ErrAzureVault⟩] },
       some (FailedAzureKeyVaultMsg akvs.name akvs.spec.vault.name))
  | .ok secretValue =>
      let akvsValuesHash := getMD5HashOfByteValues secretValue
      let afterWrite : Acc × Option String :=
        if akvs.status.secretHash ≠ akvsValuesHash then
          let a1 := { a with secretGets := a.secretGets + 1 }
          match a.state.secrets akvs.ns akvs.spec.output.secret.name with
          | none =>
              (a1, some ("failed to get existing secret " ++ akvs.spec.output.secret.name))
          | some existingSecret =>
              match updateExistingSecret akvs secretValue existingSecret with
              | .error e =>
                  (a1, some ("failed to update existing secret " ++ e))
              | .ok updatedSecret =>
                  match kubeUpdateSecret a1 updatedSecret with
                  | .error e => (a1, some e)
                  | .ok a2 => (a2, none)
        else (a, none)
      match afterWrite with
      | (a1, some e) => (a1, some e)
      | (a1, none) =>
          accUpdateStatus a1
            (updateAzureKeyVaultSecretStatusForSecret a1.state.clockNow akvs akvsValuesHash)

/-- The config-map-output branch of `syncAzureKeyVault`: fetch the vault
content via the handler, digest it, and on a digest/status-hash mismatch
`Update` a freshly built config map (no `Get` of the existing object); in every
non-error case finish with an unconditional status write for the config-map
path. -/
def vaultSyncConfigMapStep (c : VaultService) (akvs : AzureKeyVaultSecret) (a : Acc) :
    Acc × Option String :=
  match getConfigMapFromKeyVault c akvs with
  | .error _ =>
      ({ a with events := a.events ++
          [⟨"AzureKeyVaultSecret/" ++ akvs.name, "Warning", ErrAzureVault⟩] },
       some (FailedAzureKeyVaultMsg akvs.name akvs.spec.vault.name))
  | .ok cmValue =>
      let cmHash := getMD5HashOfStringValues cmValue
      let afterWrite : Acc × Option String :=
        if akvs.status.configMapHash ≠ cmHash then
          match kubeUpdateConfigMap a (createNewConfigMap akvs cmValue) with
          | .error e => (a, some e)
          | .ok a2 => (a2, none)
        else (a, none)
      match afterWrite with
      | (a1, some e) => (a1, some e)
      | (a1, none) =>
          accUpdateStatus a1
            (updateAzureKeyVaultSecretStatusForConfigMap a1.state.clockNow akvs cmHash)

/-- Outcome record of one `syncAzureKeyVault` pass. -/
structure VaultSyncOutcome where
  result : Except String Unit
  state : ClusterState
  nativeWrites : Nat
  statusWrites : Nat
  secretGets : Nat
  cmGets : Nat
  events : List EventRec

/-- `Controller.syncAzureKeyVault`: resolve the key (not-found is terminal
success), run the secret branch when the secret output is defined, then the
config-map branch when the config-map output is defined — both against the
resource fetched at the start of the pass — and finish with a success event. -/
def syncAzureKeyVault (c : VaultService) (st : ClusterState) (key : String) :
    VaultSyncOutcome :=
  match getAzureKeyVaultSecret st key with
  | .error e =>
      if handleKeyVaultError e then ⟨.ok (), st, 0, 0, 0, 0, []⟩
      else ⟨.error (resolveErrorMsg e), st, 0, 0, 0, 0, []⟩
  | .ok akvs =>
      let a0 : Acc := ⟨st, 0, 0, 0, 0, []⟩
      let (a1, e1) :=
        if akvsHasOutputSecret akvs then vaultSyncSecretStep c akvs a0 else (a0, none)
      match e1 with
      | some msg => ⟨.error msg, a1.state, a1.nativeWrites, a1.statusWrites,
                     a1.secretGets, a1.cmGets, a1.events⟩
      | none =>
          let (a2, e2) :=
            if akvsHasOutputConfigMap akvs then vaultSyncConfigMapStep c akvs a1
            else (a1, none)
          match e2 with
          | some msg => ⟨.error msg, a2.state, a2.nativeWrites, a2.statusWrites,
                         a2.secretGets, a2.cmGets, a2.events⟩
          | none =>
              ⟨.ok (), a2.state, a2.nativeWrites, a2.statusWrites,
               a2.secretGets, a2.cmGets,
               a2.events ++ [⟨"AzureKeyVaultSecret/" ++ akvs.name, "Normal", SuccessSynced⟩]⟩

/-- Modelled from the spec: the queue's generic retry wrapper — every failure
bubbles to it and the key is requeued with rate limiting; a success `Forget`s
the key's retry state.  The retry state is the set of keys with a scheduled
retry. -/
def processWorkItem (syncResult : Except String Unit) (key : String)
    (retryState : List String) : List String :=
  match syncResult with
  | .ok _ => retryState.filter (fun x => x ≠ key)
  | .error _ => if key ∈ retryState then retryState else key :: retryState

/-! ## Concrete sample inputs used by witnesses and counterexamples -/

/-- A vault service returning one key/value pair for both payload shapes. -/
def exVault : VaultService :=
  { secretData := .ok [("password", "p")], configMapData := .ok [("password", "p")] }

/-- A declaring resource in namespace `ns` named `foo` with the given output
names (empty string means the output is not defined). -/
def mkAkvs (secretOut cmOut : String) (status : AzureKeyVaultSecretStatus) :
    AzureKeyVaultSecret :=
  { ns := "ns", name := "foo", uid := "uid-1", resourceVersion := "1",
    spec :=
      { vault := { name := "vault1",
                   object := { name := "obj",
                               objectType := AzureKeyVaultObjectTypeSecret,
                               version := "" } },
        output := { secret := { name := secretOut, dataKey := "", secretType := "Opaque" },
                    configMap := { name := cmOut, dataKey := "" },
                    transforms := [] } },
    status := status }

/-- A status block with empty hashes and an operator-owned extra field. -/
def exStatusEmpty : AzureKeyVaultSecretStatus :=
  { secretName := "", secretHash := "", configMapName := "", configMapHash := "",
    lastAzureUpdate := 0, otherFields := "operator-note" }

/-- Sample resource with both outputs defined. -/
def exAkvsBoth : AzureKeyVaultSecret := mkAkvs "foo-secret" "foo-cm" exStatusEmpty

/-- Sample resource with only the secret output defined. -/
def exAkvsSecretOnly : AzureKeyVaultSecret := mkAkvs "foo-secret" "" exStatusEmpty

/-- Sample resource with only the config-map output defined. -/
def exAkvsCmOnly : AzureKeyVaultSecret := mkAkvs "" "foo-cm" exStatusEmpty

/-- Sample resource with no output defined at all. -/
def exAkvsNoOutput : AzureKeyVaultSecret := mkAkvs "" "" exStatusEmpty

/-- Sample resource whose vault object type is outside the closed set. -/
def exAkvsBadType : AzureKeyVaultSecret :=
  { exAkvsBoth with spec :=
      { exAkvsBoth.spec with vault :=
          { exAkvsBoth.spec.vault with object :=
              { exAkvsBoth.spec.vault.object with objectType := "storage" } } } }

/-- Sample secret-only resource whose stored hash already matches the vault
content served by `exVault`. -/
def exAkvsSecretOnlySynced : AzureKeyVaultSecret :=
  { exAkvsSecretOnly with status :=
      { exStatusEmpty with secretHash := getMD5HashOfByteValues [("password", "p")] } }

/-- A native secret at the output name, owned by the sample resource. -/
def exSecretOwned : KubeSecret :=
  { ns := "ns", name := "foo-secret", secretType := "Opaque",
    data := [("password", "old")], ownerRefs := [ownerRefFor exAkvsBoth] }

/-- A pre-existing unrelated native secret at the output name (no owner). -/
def exSecretUnowned : KubeSecret :=
  { ns := "ns", name := "foo-secret", secretType := "Opaque",
    data := [("password", "old")], ownerRefs := [] }

/-- A native config map at the output name, owned by the sample resource, with
one stale extra key. -/
def exCmOwned : KubeConfigMap :=
  { ns := "ns", name := "foo-cm", data := [("password", "old"), ("stale", "x")],
    ownerRefs := [ownerRefFor exAkvsBoth] }

/-- A pre-existing unrelated native config map at the output name (no owner). -/
def exCmUnowned : KubeConfigMap :=
  { ns := "ns", name := "foo-cm", data := [("stale", "x")], ownerRefs := [] }

/-- A cluster holding the given resource and at most one secret and one config
map, each stored under its own namespace and name. -/
def exState (a : AzureKeyVaultSecret) (s : Option KubeSecret)
    (cm : Option KubeConfigMap) : ClusterState :=
  { akvs := fun n m => if n = a.ns && m = a.name then some a else none,
    secrets := fun n m =>
      match s with
      | some sec => if n = sec.ns && m = sec.name then some sec else none
      | none => none,
    configMaps := fun n m =>
      match cm with
      | some c => if n = c.ns && m = c.name then some c else none
      | none => none,
    clockNow := 7 }

/-- Cluster for the C1 counterexample: the secret at the output name is an
unrelated pre-existing object, the config map is owned. -/
def exStateC1 : ClusterState := exState exAkvsBoth (some exSecretUnowned) (some exCmOwned)

/-- Cluster for the C2 counterexample: both outputs defined and both stored
hashes stale. -/
def exStateC2 : ClusterState := exState exAkvsBoth (some exSecretOwned) (some exCmOwned)

/-- First vault-drift pass over `exStateC2`. -/
def exPass1 : VaultSyncOutcome := syncAzureKeyVault exVault exStateC2 "ns/foo"

/-- Second vault-drift pass, over the state the first pass produced. -/
def exPass2 : VaultSyncOutcome := syncAzureKeyVault exVault exPass1.state "ns/foo"

/-- Cluster for the C3 counterexample: secret output only, hash already in
sync. -/
def exStateC3 : ClusterState := exState exAkvsSecretOnlySynced (some exSecretOwned) none

/-- Cluster for the C4 counterexample: config-map output only, hash stale, a
config map with a stale extra key present. -/
def exStateC4 : ClusterState := exState exAkvsCmOnly none (some exCmOwned)

/-! ## Helper congruence lemmas (the reconcilers only read the spec) -/

lemma akvsHasOutputSecret_status (a : AzureKeyVaultSecret) (S : AzureKeyVaultSecretStatus) :
    akvsHasOutputSecret { a with status := S } = akvsHasOutputSecret a := rfl

lemma akvsHasOutputConfigMap_status (a : AzureKeyVaultSecret) (S : AzureKeyVaultSecretStatus) :
    akvsHasOutputConfigMap { a with status := S } = akvsHasOutputConfigMap a := rfl

lemma getSecretFromKeyVault_status (c : VaultService) (a : AzureKeyVaultSecret)
    (S : AzureKeyVaultSecretStatus) :
    getSecretFromKeyVault c { a with status := S } = getSecretFromKeyVault c a := rfl

lemma getConfigMapFromKeyVault_status (c : VaultService) (a : AzureKeyVaultSecret)
    (S : AzureKeyVaultSecretStatus) :
    getConfigMapFromKeyVault c { a with status := S } = getConfigMapFromKeyVault c a := rfl

lemma determineSecretName_status (a : AzureKeyVaultSecret) (S : AzureKeyVaultSecretStatus) :
    determineSecretName { a with status := S } = determineSecretName a := rfl

lemma determineConfigMapName_status (a : AzureKeyVaultSecret) (S : AzureKeyVaultSecretStatus) :
    determineConfigMapName { a with status := S } = determineConfigMapName a := rfl

/-! ## Claims -/

/-- C5: for every Add, Update or Delete event whose payload converts to a
declaring resource with neither a secret output nor a config-map output
defined (for Update: both old and new), the event dispatcher enqueues nothing
on either queue. -/
theorem inert_resource_never_enqueued
    (obj objOld : EventObject) (s sOld : AzureKeyVaultSecret)
    (h : convertToAzureKeyVaultSecret obj = .ok s)
    (hOld : convertToAzureKeyVaultSecret objOld = .ok sOld)
    (hn : akvsHasOutputDefined s = false)
    (hnOld : akvsHasOutputDefined sOld = false) :
    onAdd obj = .ok [] ∧ onUpdate objOld obj = .ok [] ∧ onDelete obj = .ok [] := by
  refine ⟨?_, ?_, ?_⟩
  · simp [onAdd, h, hn]
  · simp [onUpdate, h, hOld, hn, hnOld]
  · simp [onDelete, h, hn]

/-- Witness for C5 at a concrete no-output resource. -/
theorem inert_resource_never_enqueued_witness :
    onAdd (.akvs exAkvsNoOutput) = .ok [] ∧
    onUpdate (.akvs exAkvsNoOutput) (.akvs exAkvsNoOutput) = .ok [] ∧
    onDelete (.akvs exAkvsNoOutput) = .ok [] :=
  inert_resource_never_enqueued (.akvs exAkvsNoOutput) (.akvs exAkvsNoOutput)
    exAkvsNoOutput exAkvsNoOutput rfl rfl (by decide) (by decide)

/-- C6: the claim says a conversion failure is logged and the event dropped
with no further processing; in the code the handlers log but do not return,
and the very next statement dereferences the nil conversion result — every
handler panics on a payload that fails conversion. -/
theorem conversion_failure_panics :
    onAdd (.foreign "not-an-akvs") = .nilPanic ∧
    onUpdate (.foreign "not-an-akvs") (.akvs exAkvsSecretOnly) = .nilPanic ∧
    onUpdate (.akvs exAkvsSecretOnly) (.foreign "not-an-akvs") = .nilPanic ∧
    onDelete (.tombstoneOther "ns/foo" "plain-string") = .nilPanic :=
  ⟨rfl, rfl, rfl, rfl⟩

lemma applyDeleteActions_spec (qs : DispatchState) (k : String) :
    k ∈ (applyQueueActions qs [.enqueueCrd k, .forgetAzure k]).crdQueue ∧
    k ∉ (applyQueueActions qs [.enqueueCrd k, .forgetAzure k]).azureRetry := by
  by_cases hk : k ∈ qs.crdQueue
  · simp [applyQueueActions, applyQueueAction, hk, List.mem_filter]
  · simp [applyQueueActions, applyQueueAction, hk, List.mem_filter]

/-- C7: a Delete event for a resource with an output defined enqueues the key
on the structural queue and `Forget`s it on the vault-drift queue; applying
those actions leaves the key scheduled on the structural queue and absent from
the vault-drift retry state. -/
theorem delete_event_clears_azure_retry
    (obj : EventObject) (s : AzureKeyVaultSecret) (qs : DispatchState)
    (h : convertToAzureKeyVaultSecret obj = .ok s)
    (hout : akvsHasOutputDefined s = true) :
    onDelete obj = .ok [.enqueueCrd (eventObjectKey obj), .forgetAzure (eventObjectKey obj)] ∧
    eventObjectKey obj ∈
      (applyQueueActions qs [.enqueueCrd (eventObjectKey obj),
                             .forgetAzure (eventObjectKey obj)]).crdQueue ∧
    eventObjectKey obj ∉
      (applyQueueActions qs [.enqueueCrd (eventObjectKey obj),
                             .forgetAzure (eventObjectKey obj)]).azureRetry := by
  refine ⟨?_, (applyDeleteActions_spec qs (eventObjectKey obj)).1,
          (applyDeleteActions_spec qs (eventObjectKey obj)).2⟩
  cases obj with
  | akvs s0 =>
      simp [convertToAzureKeyVaultSecret] at h
      subst h
      simp [onDelete, convertToAzureKeyVaultSecret, hout, metaNamespaceKeyFunc, eventObjectKey]
  | tombstoneAkvs k s0 =>
      simp [convertToAzureKeyVaultSecret] at h
      subst h
      simp [onDelete, convertToAzureKeyVaultSecret, hout, metaNamespaceKeyFunc, eventObjectKey]
  | tombstoneOther k d => simp [convertToAzureKeyVaultSecret] at h
  | foreign d => simp [convertToAzureKeyVaultSecret] at h

/-- Witness for C7 at a concrete deletion with a pending retry entry. -/
theorem delete_event_clears_azure_retry_witness :
    onDelete (.akvs exAkvsSecretOnly) =
      .ok [.enqueueCrd "ns/foo", .forgetAzure "ns/foo"] ∧
    "ns/foo" ∈ (applyQueueActions ⟨[], [], ["ns/foo"]⟩
      [.enqueueCrd "ns/foo", .forgetAzure "ns/foo"]).crdQueue ∧
    "ns/foo" ∉ (applyQueueActions ⟨[], [], ["ns/foo"]⟩
      [.enqueueCrd "ns/foo", .forgetAzure "ns/foo"]).azureRetry :=
  delete_event_clears_azure_retry (.akvs exAkvsSecretOnly) exAkvsSecretOnly
    ⟨[], [], ["ns/foo"]⟩ rfl (by decide)

/-- C9: every status persister builds a deep copy and updates exactly the
controller-owned status fields — the secret-path updater sets SecretName,
SecretHash and LastAzureUpdate and leaves the config-map fields and all other
status data unchanged; the config-map-path updater is symmetric; the combined
updater sets exactly the five owned fields — and none of them touches the
spec or the identity of the resource. -/
theorem status_updaters_touch_only_owned_fields
    (akvs : AzureKeyVaultSecret) (now : Nat) (sName cmName sHash cmHash : String) :
    (updateAzureKeyVaultSecretStatusForSecret now akvs sHash).spec = akvs.spec ∧
    (updateAzureKeyVaultSecretStatusForSecret now akvs sHash).ns = akvs.ns ∧
    (updateAzureKeyVaultSecretStatusForSecret now akvs sHash).name = akvs.name ∧
    (updateAzureKeyVaultSecretStatusForSecret now akvs sHash).uid = akvs.uid ∧
    (updateAzureKeyVaultSecretStatusForSecret now akvs sHash).status.secretName
      = determineSecretName akvs ∧
    (updateAzureKeyVaultSecretStatusForSecret now akvs sHash).status.secretHash = sHash ∧
    (updateAzureKeyVaultSecretStatusForSecret now akvs sHash).status.lastAzureUpdate = now ∧
    (updateAzureKeyVaultSecretStatusForSecret now akvs sHash).status.configMapName
      = akvs.status.configMapName ∧
    (updateAzureKeyVaultSecretStatusForSecret now akvs sHash).status.configMapHash
      = akvs.status.configMapHash ∧
    (updateAzureKeyVaultSecretStatusForSecret now akvs sHash).status.otherFields
      = akvs.status.otherFields ∧
    (updateAzureKeyVaultSecretStatusForConfigMap now akvs cmHash).spec = akvs.spec ∧
    (updateAzureKeyVaultSecretStatusForConfigMap now akvs cmHash).ns = akvs.ns ∧
    (updateAzureKeyVaultSecretStatusForConfigMap now akvs cmHash).name = akvs.name ∧
    (updateAzureKeyVaultSecretStatusForConfigMap now akvs cmHash).uid = akvs.uid ∧
    (updateAzureKeyVaultSecretStatusForConfigMap now akvs cmHash).status.configMapName
      = determineConfigMapName akvs ∧
    (updateAzureKeyVaultSecretStatusForConfigMap now akvs cmHash).status.configMapHash
      = cmHash ∧
    (updateAzureKeyVaultSecretStatusForConfigMap now akvs cmHash).status.lastAzureUpdate
      = now ∧
    (updateAzureKeyVaultSecretStatusForConfigMap now akvs cmHash).status.secretName
      = akvs.status.secretName ∧
    (updateAzureKeyVaultSecretStatusForConfigMap now akvs cmHash).status.secretHash
      = akvs.status.secretHash ∧
    (updateAzureKeyVaultSecretStatusForConfigMap now akvs cmHash).status.otherFields
      = akvs.status.otherFields ∧
    (updateAzureKeyVaultSecretStatus now akvs sName cmName sHash cmHash).spec = akvs.spec ∧
    (updateAzureKeyVaultSecretStatus now akvs sName cmName sHash cmHash).status.secretName
      = sName ∧
    (updateAzureKeyVaultSecretStatus now akvs sName cmName sHash cmHash).status.secretHash
      = sHash ∧
    (updateAzureKeyVaultSecretStatus now akvs sName cmName sHash cmHash).status.configMapName
      = cmName ∧
    (updateAzureKeyVaultSecretStatus now akvs sName cmName sHash cmHash).status.configMapHash
      = cmHash ∧
    (updateAzureKeyVaultSecretStatus now akvs sName cmName sHash cmHash).status.lastAzureUpdate
      = now ∧
    (updateAzureKeyVaultSecretStatus now akvs sName cmName sHash cmHash).status.otherFields
      = akvs.status.otherFields :=
  ⟨rfl, rfl, rfl, rfl, rfl, rfl, rfl, rfl, rfl, rfl,
   rfl, rfl, rfl, rfl, rfl, rfl, rfl, rfl, rfl, rfl,
   rfl, rfl, rfl, rfl, rfl, rfl, rfl⟩

/-- C10: when the structural reconciler resolves a declaring resource that
defines neither output, no output object is ever assigned and the final
ownership check dereferences the nil object (panic) instead of returning
cleanly; the situation is reachable because an update that removes the last
output still enqueues the key on the structural queue. -/
theorem sync_without_output_dereferences_nil
    (st : ClusterState) (key : String) (akvs old : AzureKeyVaultSecret)
    (hres : getAzureKeyVaultSecret st key = .ok akvs)
    (hs : akvsHasOutputSecret akvs = false)
    (hc : akvsHasOutputConfigMap akvs = false)
    (hold : akvsHasOutputDefined old = true) :
    (syncAzureKeyVaultSecret st key).result = .nilPanic ∧
    onUpdate (.akvs old) (.akvs akvs) = .ok [.enqueueCrd (metaKey akvs)] := by
  constructor
  · simp [syncAzureKeyVaultSecret, hres, hs, hc]
  · have hnd : akvsHasOutputDefined akvs = false := by
      simp [akvsHasOutputDefined, hs, hc]
    simp [onUpdate, convertToAzureKeyVaultSecret, hnd, hold, eventObjectKey]

/-- Witness for C10: the concrete no-output resource panics the structural
reconciler and the output-removing update is enqueued. -/
theorem sync_without_output_dereferences_nil_witness :
    (syncAzureKeyVaultSecret (exState exAkvsNoOutput none none) "ns/foo").result
      = .nilPanic ∧
    onUpdate (.akvs exAkvsSecretOnly) (.akvs exAkvsNoOutput)
      = .ok [.enqueueCrd (metaKey exAkvsNoOutput)] :=
  sync_without_output_dereferences_nil (exState exAkvsNoOutput none none) "ns/foo"
    exAkvsNoOutput exAkvsSecretOnly rfl (by decide) (by decide) (by decide)

/-- C8 counterexample: for a vault object type outside the closed set both
paths fail as claimed, but the failure is requeued by the queue's retry
wrapper — refuting the claim's "non-retried" clause at this concrete input. -/
theorem unsupported_type_retried_counterexample :
    getSecretFromKeyVault exVault exAkvsBadType
      = .error (unsupportedObjectTypeMsg "storage") ∧
    getConfigMapFromKeyVault exVault exAkvsBadType
      = .error (unsupportedObjectTypeMsg "storage") ∧
    "ns/foo" ∈ processWorkItem (.error (unsupportedObjectTypeMsg "storage")) "ns/foo" [] := by
  refine ⟨rfl, rfl, ?_⟩
  simp [processWorkItem]

/-- C8 amended: handler selection is a single exhaustive dispatch on the vault
object type — every type outside the closed set fails both paths with the
hard unsupported-type error, which the queue then retries like any other
failure; for the Secret type a secret handler is selected whenever the
transformator is created, and for the other three in-set types a handler is
always selected (the same one on both paths). -/
theorem handler_dispatch_closed
    (c : VaultService) (a : AzureKeyVaultSecret) (key : String) (retry : List String) :
    (a.spec.vault.object.objectType ∉ closedVaultObjectTypes →
      getSecretFromKeyVault c a
        = .error (unsupportedObjectTypeMsg a.spec.vault.object.objectType) ∧
      getConfigMapFromKeyVault c a
        = .error (unsupportedObjectTypeMsg a.spec.vault.object.objectType) ∧
      key ∈ processWorkItem
        (.error (unsupportedObjectTypeMsg a.spec.vault.object.objectType)) key retry) ∧
    (a.spec.vault.object.objectType = AzureKeyVaultObjectTypeSecret →
      ∀ tr, CreateTransformator a.spec.output = .ok tr →
        selectSecretHandler a = .ok (.azureSecretHandler tr) ∧
        selectConfigMapHandler a = .ok (.azureSecretHandler tr)) ∧
    (a.spec.vault.object.objectType ∈ closedVaultObjectTypes →
      a.spec.vault.object.objectType ≠ AzureKeyVaultObjectTypeSecret →
      ∃ h, selectSecretHandler a = .ok h ∧ selectConfigMapHandler a = .ok h) := by
  refine ⟨?_, ?_, ?_⟩
  · intro hnot
    simp only [closedVaultObjectTypes, List.mem_cons, List.not_mem_nil, or_false,
      not_or] at hnot
    obtain ⟨h1, h2, h3, h4⟩ := hnot
    refine ⟨?_, ?_, ?_⟩
    · simp [getSecretFromKeyVault, selectSecretHandler, h1, h2, h3, h4]
    · simp [getConfigMapFromKeyVault, selectConfigMapHandler, h1, h2, h3, h4]
    · by_cases hk : key ∈ retry <;> simp [processWorkItem, hk]
  · intro ht tr htr
    constructor
    · simp [selectSecretHandler, ht, htr]
    · simp [selectConfigMapHandler, ht, htr]
  · intro hin hne
    simp only [closedVaultObjectTypes, List.mem_cons, List.not_mem_nil, or_false] at hin
    rcases hin with h | h | h | h
    · exact absurd h hne
    · exact ⟨.azureCertificateHandler,
        by simp [selectSecretHandler, selectConfigMapHandler, h,
          AzureKeyVaultObjectTypeCertificate, AzureKeyVaultObjectTypeSecret],
        by simp [selectConfigMapHandler, h,
          AzureKeyVaultObjectTypeCertificate, AzureKeyVaultObjectTypeSecret]⟩
    · exact ⟨.azureKeyHandler,
        by simp [selectSecretHandler, h,
          AzureKeyVaultObjectTypeKey, AzureKeyVaultObjectTypeSecret,
          AzureKeyVaultObjectTypeCertificate],
        by simp [selectConfigMapHandler, h,
          AzureKeyVaultObjectTypeKey, AzureKeyVaultObjectTypeSecret,
          AzureKeyVaultObjectTypeCertificate]⟩
    · exact ⟨.azureMultiKeySecretHandler,
        by simp [selectSecretHandler, h,
          AzureKeyVaultObjectTypeMultiKeyValueSecret, AzureKeyVaultObjectTypeSecret,
          AzureKeyVaultObjectTypeCertificate, AzureKeyVaultObjectTypeKey],
        by simp [selectConfigMapHandler, h,
          AzureKeyVaultObjectTypeMultiKeyValueSecret, AzureKeyVaultObjectTypeSecret,
          AzureKeyVaultObjectTypeCertificate, AzureKeyVaultObjectTypeKey]⟩

/-- Witness for C8 at concrete inputs: the out-of-set sample fails and the
in-set Secret-type sample selects the secret handler. -/
theorem handler_dispatch_closed_witness :
    getSecretFromKeyVault exVault exAkvsBadType
      = .error (unsupportedObjectTypeMsg "storage") ∧
    selectSecretHandler exAkvsBoth = .ok (.azureSecretHandler []) := by
  constructor
  · exact ((handler_dispatch_closed exVault exAkvsBadType "ns/foo" []).1 (by decide)).1
  · exact ((handler_dispatch_closed exVault exAkvsBoth "ns/foo" []).2.1 rfl [] rfl).1

/-- C3 counterexample: with the stored hash already equal to the fetched
content's digest, the pass succeeds with zero native writes — but still
performs a status write, refuting "without performing any status write". -/
theorem status_written_without_drift_counterexample :
    (syncAzureKeyVault exVault exStateC3 "ns/foo").result = .ok () ∧
    (syncAzureKeyVault exVault exStateC3 "ns/foo").nativeWrites = 0 ∧
    (syncAzureKeyVault exVault exStateC3 "ns/foo").statusWrites = 1 :=
  ⟨rfl, rfl, rfl⟩

/-- C3 amended: when every defined output's digest matches the stored hash the
pass succeeds with no native-object write, but the status subresource is still
written — once per defined output, unconditionally. -/
theorem status_write_unconditional
    (c : VaultService) (st : ClusterState) (key : String) (akvs : AzureKeyVaultSecret)
    (hres : getAzureKeyVaultSecret st key = .ok akvs)
    (hself : st.akvs akvs.ns akvs.name = some akvs)
    (hsec : akvsHasOutputSecret akvs = true →
      ∃ v, getSecretFromKeyVault c akvs = .ok v ∧
           akvs.status.secretHash = getMD5HashOfByteValues v)
    (hcm : akvsHasOutputConfigMap akvs = true →
      ∃ w, getConfigMapFromKeyVault c akvs = .ok w ∧
           akvs.status.configMapHash = getMD5HashOfStringValues w) :
    (syncAzureKeyVault c st key).result = .ok () ∧
    (syncAzureKeyVault c st key).nativeWrites = 0 ∧
    (syncAzureKeyVault c st key).statusWrites =
      (if akvsHasOutputSecret akvs then 1 else 0) +
      (if akvsHasOutputConfigMap akvs then 1 else 0) := by
  by_cases hs : akvsHasOutputSecret akvs <;> by_cases hc : akvsHasOutputConfigMap akvs
  · obtain ⟨v, hv, hveq⟩ := hsec hs
    obtain ⟨w, hw, hweq⟩ := hcm hc
    refine ⟨?_, ?_, ?_⟩ <;>
      simp [syncAzureKeyVault, hres, hs, hc, vaultSyncSecretStep, vaultSyncConfigMapStep,
        hv, hw, hveq, hweq, accUpdateStatus, applyUpdateStatus,
        updateAzureKeyVaultSecretStatusForSecret, updateAzureKeyVaultSecretStatusForConfigMap,
        AzureKeyVaultSecret.deepCopy, hself]
  · obtain ⟨v, hv, hveq⟩ := hsec hs
    refine ⟨?_, ?_, ?_⟩ <;>
      simp [syncAzureKeyVault, hres, hs, hc, vaultSyncSecretStep,
        hv, hveq, accUpdateStatus, applyUpdateStatus,
        updateAzureKeyVaultSecretStatusForSecret,
        AzureKeyVaultSecret.deepCopy, hself]
  · obtain ⟨w, hw, hweq⟩ := hcm hc
    refine ⟨?_, ?_, ?_⟩ <;>
      simp [syncAzureKeyVault, hres, hs, hc, vaultSyncConfigMapStep,
        hw, hweq, accUpdateStatus, applyUpdateStatus,
        updateAzureKeyVaultSecretStatusForConfigMap,
        AzureKeyVaultSecret.deepCopy, hself]
  · refine ⟨?_, ?_, ?_⟩ <;> simp [syncAzureKeyVault, hres, hs, hc]

/-- Witness for C3 amended at the concrete in-sync secret-only cluster. -/
theorem status_write_unconditional_witness :
    (syncAzureKeyVault exVault exStateC3 "ns/foo").nativeWrites = 0 ∧
    (syncAzureKeyVault exVault exStateC3 "ns/foo").statusWrites = 1 := by
  have h := status_write_unconditional exVault exStateC3 "ns/foo" exAkvsSecretOnlySynced
    rfl rfl
    (fun _ => ⟨[("password", "p")], rfl, rfl⟩)
    (fun hfalse => absurd hfalse (by decide))
  refine ⟨h.2.1, ?_⟩
  rw [h.2.2]
  decide

/-- C4 counterexample: on a config-map digest mismatch the reconciler performs
the Update without any Get of the existing config map (`cmGets = 0`), writing
a freshly built object that discards the pre-existing stale key — while the
secret path at the same kind of drift performs one Get. -/
theorem configmap_updated_without_read_counterexample :
    (syncAzureKeyVault exVault exStateC4 "ns/foo").result = .ok () ∧
    (syncAzureKeyVault exVault exStateC4 "ns/foo").nativeWrites = 1 ∧
    (syncAzureKeyVault exVault exStateC4 "ns/foo").cmGets = 0 ∧
    (syncAzureKeyVault exVault exStateC4 "ns/foo").state.configMaps "ns" "foo-cm"
      = some (createNewConfigMap exAkvsCmOnly [("password", "p")]) ∧
    (syncAzureKeyVault exVault (exState exAkvsSecretOnly (some exSecretOwned) none)
      "ns/foo").secretGets = 1 :=
  ⟨rfl, rfl, rfl, rfl, rfl⟩

/-- C4 amended: on a config-map digest mismatch the reconciler does not read
the existing config map; it builds a new config map from the declaring
resource and the fetched values and writes it back directly — unlike the
secret path, which Gets the existing secret before updating it. -/
theorem configmap_drift_update_is_blind
    (c : VaultService) (st : ClusterState) (key : String) (akvs : AzureKeyVaultSecret)
    (w : List (String × String)) (cmEx : KubeConfigMap)
    (hres : getAzureKeyVaultSecret st key = .ok akvs)
    (hself : st.akvs akvs.ns akvs.name = some akvs)
    (hs : akvsHasOutputSecret akvs = false)
    (hc : akvsHasOutputConfigMap akvs = true)
    (hw : getConfigMapFromKeyVault c akvs = .ok w)
    (hdiff : akvs.status.configMapHash ≠ getMD5HashOfStringValues w)
    (hcmex : st.configMaps akvs.ns (determineConfigMapName akvs) = some cmEx) :
    (syncAzureKeyVault c st key).result = .ok () ∧
    (syncAzureKeyVault c st key).nativeWrites = 1 ∧
    (syncAzureKeyVault c st key).cmGets = 0 ∧
    (syncAzureKeyVault c st key).state.configMaps akvs.ns (determineConfigMapName akvs)
      = some (createNewConfigMap akvs w) := by
  refine ⟨?_, ?_, ?_, ?_⟩ <;>
    simp [syncAzureKeyVault, hres, hs, hc, vaultSyncConfigMapStep, hw, hdiff,
      kubeUpdateConfigMap, createNewConfigMap, hcmex, accUpdateStatus, applyUpdateStatus,
      updateAzureKeyVaultSecretStatusForConfigMap, AzureKeyVaultSecret.deepCopy, hself]

/-- Witness for C4 amended at the concrete drifted config-map cluster. -/
theorem configmap_drift_update_is_blind_witness :
    (syncAzureKeyVault exVault exStateC4 "ns/foo").nativeWrites = 1 ∧
    (syncAzureKeyVault exVault exStateC4 "ns/foo").cmGets = 0 := by
  have h := configmap_drift_update_is_blind exVault exStateC4 "ns/foo" exAkvsCmOnly
    [("password", "p")] exCmOwned rfl rfl (by decide) (by decide) rfl (by decide) rfl
  exact ⟨h.2.1, h.2.2.1⟩

/-- C1 counterexample: with both outputs defined, the secret at the output
name is a pre-existing unrelated object (its ownership does not match), yet
the structural reconciler returns success and records no warning — only the
last-processed output object's ownership is checked. -/
theorem ownership_mismatch_unreported_counterexample :
    isOwnedBy exSecretUnowned.ownerRefs exAkvsBoth = false ∧
    (syncAzureKeyVaultSecret exStateC1 "ns/foo").result = .ok ∧
    (syncAzureKeyVaultSecret exStateC1 "ns/foo").events =
      [⟨"Secret/foo-secret", "Normal", SuccessSynced⟩,
       ⟨"ConfigMap/foo-cm", "Normal", SuccessSynced⟩] :=
  ⟨rfl, rfl, rfl⟩

/-- C1 amended: the ownership reference is verified only on the output object
processed last — the config map whenever the config-map output is defined,
otherwise the secret; on a mismatch of that object a warning event is
recorded against the declaring resource, an error is returned, and the
pre-existing object is not overwritten. -/
theorem ownership_checked_on_last_output
    (st : ClusterState) (key : String) (akvs : AzureKeyVaultSecret) :
    (∀ cm0 : KubeConfigMap, getAzureKeyVaultSecret st key = .ok akvs →
      akvsHasOutputConfigMap akvs = true →
      st.configMaps akvs.ns (determineConfigMapName akvs) = some cm0 →
      isOwnedBy cm0.ownerRefs akvs = false →
      (syncAzureKeyVaultSecret st key).result = .err (MessageResourceExists cm0.name) ∧
      (⟨"AzureKeyVaultSecret/" ++ akvs.name, "Warning", ErrResourceExists⟩ : EventRec)
        ∈ (syncAzureKeyVaultSecret st key).events ∧
      (syncAzureKeyVaultSecret st key).state.configMaps akvs.ns
        (determineConfigMapName akvs) = some cm0) ∧
    (∀ s0 : KubeSecret, getAzureKeyVaultSecret st key = .ok akvs →
      akvsHasOutputSecret akvs = true →
      akvsHasOutputConfigMap akvs = false →
      st.secrets akvs.ns (determineSecretName akvs) = some s0 →
      isOwnedBy s0.ownerRefs akvs = false →
      (syncAzureKeyVaultSecret st key).result = .err (MessageResourceExists s0.name) ∧
      (⟨"AzureKeyVaultSecret/" ++ akvs.name, "Warning", ErrResourceExists⟩ : EventRec)
        ∈ (syncAzureKeyVaultSecret st key).events ∧
      (syncAzureKeyVaultSecret st key).state.secrets akvs.ns
        (determineSecretName akvs) = some s0) := by
  constructor
  · intro cm0 hres hcm hcm0 hown
    by_cases hsec : akvsHasOutputSecret akvs
    · cases hgs : st.secrets akvs.ns (determineSecretName akvs) with
      | some s0 =>
          refine ⟨?_, ?_, ?_⟩ <;>
            simp [syncAzureKeyVaultSecret, hres, hsec, hcm, getOrCreateKubernetesSecret,
              hgs, getOrCreateKubernetesConfigMap, hcm0, hown]
      | none =>
          refine ⟨?_, ?_, ?_⟩ <;>
            simp [syncAzureKeyVaultSecret, hres, hsec, hcm, getOrCreateKubernetesSecret,
              hgs, getOrCreateKubernetesConfigMap, hcm0, hown]
    · refine ⟨?_, ?_, ?_⟩ <;>
        simp [syncAzureKeyVaultSecret, hres, hsec, hcm, getOrCreateKubernetesConfigMap,
          hcm0, hown]
  · intro s0 hres hsec hcm hgs hown
    refine ⟨?_, ?_, ?_⟩ <;>
      simp [syncAzureKeyVaultSecret, hres, hsec, hcm, getOrCreateKubernetesSecret,
        hgs, hown]

/-- Witness for C1 amended, both cases: an unrelated pre-existing config map
at the output name of a both-outputs resource yields the reported conflict,
and an unrelated pre-existing secret at the output name of a secret-only
resource yields it too. -/
theorem ownership_checked_on_last_output_witness :
    (syncAzureKeyVaultSecret (exState exAkvsBoth (some exSecretOwned) (some exCmUnowned))
      "ns/foo").result = .err (MessageResourceExists exCmUnowned.name) ∧
    (syncAzureKeyVaultSecret (exState exAkvsSecretOnly (some exSecretUnowned) none)
      "ns/foo").result = .err (MessageResourceExists exSecretUnowned.name) :=
  ⟨((ownership_checked_on_last_output
      (exState exAkvsBoth (some exSecretOwned) (some exCmUnowned)) "ns/foo"
      exAkvsBoth).1 exCmUnowned rfl (by decide) rfl (by decide)).1,
   ((ownership_checked_on_last_output
      (exState exAkvsSecretOnly (some exSecretUnowned) none) "ns/foo"
      exAkvsSecretOnly).2 exSecretUnowned rfl (by decide) (by decide) rfl (by decide)).1⟩

/-- C2 counterexample: with both outputs defined and both hashes stale, the
first pass performs two native writes (not one), and — because the second
status write of the pass is built from the stale in-memory copy and reverts
`SecretHash` — the second pass performs another native write (not zero), even
though both of the first pass's status writes succeeded. -/
theorem double_pass_extra_writes_counterexample :
    exPass1.result = .ok () ∧ exPass1.statusWrites = 2 ∧
    exPass1.nativeWrites = 2 ∧ exPass2.nativeWrites = 1 :=
  ⟨rfl, rfl, rfl, rfl⟩

lemma vault_sync_secret_only_twice
    (c : VaultService) (st : ClusterState) (key : String) (akvs : AzureKeyVaultSecret)
    (v : List (String × String)) (ex : KubeSecret)
    (hkey : splitMetaNamespaceKey key = .ok (akvs.ns, akvs.name))
    (hself : st.akvs akvs.ns akvs.name = some akvs)
    (hs : akvsHasOutputSecret akvs = true)
    (hc : akvsHasOutputConfigMap akvs = false)
    (hv : getSecretFromKeyVault c akvs = .ok v)
    (hdiff : akvs.status.secretHash ≠ getMD5HashOfByteValues v)
    (hex : st.secrets akvs.ns akvs.spec.output.secret.name = some ex)
    (hexns : ex.ns = akvs.ns) (hexname : ex.name = akvs.spec.output.secret.name) :
    (syncAzureKeyVault c st key).result = .ok () ∧
    (syncAzureKeyVault c st key).nativeWrites = 1 ∧
    (syncAzureKeyVault c st key).statusWrites = 1 ∧
    (syncAzureKeyVault c (syncAzureKeyVault c st key).state key).nativeWrites = 0 := by
  have hres : getAzureKeyVaultSecret st key = .ok akvs := by
    simp [getAzureKeyVaultSecret, hkey, hself]
  refine ⟨?_, ?_, ?_, ?_⟩ <;>
    simp [syncAzureKeyVault, hres, hs, hc, vaultSyncSecretStep, hv, hdiff,
      updateExistingSecret, kubeUpdateSecret, hex, hexns, hexname,
      accUpdateStatus, applyUpdateStatus, updateAzureKeyVaultSecretStatusForSecret,
      AzureKeyVaultSecret.deepCopy, hself, getAzureKeyVaultSecret, hkey,
      akvsHasOutputSecret_status, akvsHasOutputConfigMap_status,
      getSecretFromKeyVault_status, determineSecretName_status]

lemma vault_sync_cm_only_twice
    (c : VaultService) (st : ClusterState) (key : String) (akvs : AzureKeyVaultSecret)
    (w : List (String × String)) (cmEx : KubeConfigMap)
    (hkey : splitMetaNamespaceKey key = .ok (akvs.ns, akvs.name))
    (hself : st.akvs akvs.ns akvs.name = some akvs)
    (hs : akvsHasOutputSecret akvs = false)
    (hc : akvsHasOutputConfigMap akvs = true)
    (hw : getConfigMapFromKeyVault c akvs = .ok w)
    (hdiff : akvs.status.configMapHash ≠ getMD5HashOfStringValues w)
    (hcmex : st.configMaps akvs.ns (determineConfigMapName akvs) = some cmEx) :
    (syncAzureKeyVault c st key).result = .ok () ∧
    (syncAzureKeyVault c st key).nativeWrites = 1 ∧
    (syncAzureKeyVault c st key).statusWrites = 1 ∧
    (syncAzureKeyVault c (syncAzureKeyVault c st key).state key).nativeWrites = 0 := by
  have hres : getAzureKeyVaultSecret st key = .ok akvs := by
    simp [getAzureKeyVaultSecret, hkey, hself]
  refine ⟨?_, ?_, ?_, ?_⟩ <;>
    simp [syncAzureKeyVault, hres, hs, hc, vaultSyncConfigMapStep, hw, hdiff,
      createNewConfigMap, kubeUpdateConfigMap, hcmex,
      accUpdateStatus, applyUpdateStatus, updateAzureKeyVaultSecretStatusForConfigMap,
      AzureKeyVaultSecret.deepCopy, hself, getAzureKeyVaultSecret, hkey,
      akvsHasOutputSecret_status, akvsHasOutputConfigMap_status,
      getConfigMapFromKeyVault_status, determineConfigMapName_status]

/-- C2 amended: for a declaring resource with exactly one output kind defined,
two successive vault-drift passes over unchanged vault content perform exactly
one native-object write (the Update of the first pass, the digest differing
from the stored hash) and zero native-object writes in the second pass, given
that the first pass's status write succeeded (the pass's single status write
is counted in the conclusion). -/
theorem vault_sync_idempotent_single_output
    (c : VaultService) (st : ClusterState) (key : String) (akvs : AzureKeyVaultSecret)
    (hkey : splitMetaNamespaceKey key = .ok (akvs.ns, akvs.name))
    (hself : st.akvs akvs.ns akvs.name = some akvs) :
    (∀ v ex, akvsHasOutputSecret akvs = true → akvsHasOutputConfigMap akvs = false →
      getSecretFromKeyVault c akvs = .ok v →
      akvs.status.secretHash ≠ getMD5HashOfByteValues v →
      st.secrets akvs.ns akvs.spec.output.secret.name = some ex →
      ex.ns = akvs.ns → ex.name = akvs.spec.output.secret.name →
      (syncAzureKeyVault c st key).result = .ok () ∧
      (syncAzureKeyVault c st key).nativeWrites = 1 ∧
      (syncAzureKeyVault c st key).statusWrites = 1 ∧
      (syncAzureKeyVault c (syncAzureKeyVault c st key).state key).nativeWrites = 0) ∧
    (∀ w cmEx, akvsHasOutputSecret akvs = false → akvsHasOutputConfigMap akvs = true →
      getConfigMapFromKeyVault c akvs = .ok w →
      akvs.status.configMapHash ≠ getMD5HashOfStringValues w →
      st.configMaps akvs.ns (determineConfigMapName akvs) = some cmEx →
      (syncAzureKeyVault c st key).result = .ok () ∧
      (syncAzureKeyVault c st key).nativeWrites = 1 ∧
      (syncAzureKeyVault c st key).statusWrites = 1 ∧
      (syncAzureKeyVault c (syncAzureKeyVault c st key).state key).nativeWrites = 0) := by
  constructor
  · intro v ex hs hc hv hdiff hex hexns hexname
    exact vault_sync_secret_only_twice c st key akvs v ex hkey hself hs hc hv hdiff
      hex hexns hexname
  · intro w cmEx hs hc hw hdiff hcmex
    exact vault_sync_cm_only_twice c st key akvs w cmEx hkey hself hs hc hw hdiff hcmex

/-- Witness for C2 amended at the concrete secret-only drifted cluster. -/
theorem vault_sync_idempotent_single_output_witness :
    (syncAzureKeyVault exVault (exState exAkvsSecretOnly (some exSecretOwned) none)
      "ns/foo").nativeWrites = 1 ∧
    (syncAzureKeyVault exVault
      (syncAzureKeyVault exVault (exState exAkvsSecretOnly (some exSecretOwned) none)
        "ns/foo").state "ns/foo").nativeWrites = 0 := by
  have h := (vault_sync_idempotent_single_output exVault
      (exState exAkvsSecretOnly (some exSecretOwned) none) "ns/foo" exAkvsSecretOnly
      rfl rfl).1
    [("password", "p")] exSecretOwned (by decide) (by decide) rfl (by decide) rfl rfl rfl
  exact ⟨h.2.1, h.2.2.2⟩

end Akv2k8s
